import Mathlib

/-!
# Verification of BROCCOLI OpenCL compute kernels (broccoli_lib_kernel.cpp)

Shallow embedding of the per-voxel semantics of the GPU kernels in
`code/BROCCOLI_LIB/broccoli_lib_kernel.cpp`.

Conventions of the embedding:

* 32-bit floats are modelled as elements of an arbitrary linearly ordered
  field `K` (instantiated at `ℚ` for concrete evaluations); float literals
  such as `0.001f` become the exact rationals they denote (`1/1000`).
  Claims stated "up to floating-point tolerance" are settled as exact
  identities of this idealised arithmetic.
* Flat row-major buffers (`idx = x + y*W + z*W*H [+ t*W*H*D]`) are modelled
  as functions of their coordinates; `Calculate3DIndex` is injective on
  in-bounds coordinates (proved below as `Calculate3DIndex_injective`), so
  the two views agree.  All coordinates are `ℤ` (device `int`s; the sizes
  involved are far below 2^31, so wraparound never occurs).
* A kernel becomes a function from its buffer arguments and scalar
  arguments to the value it writes at a given output position; kernels
  that conditionally leave buffer cells untouched take the previous buffer
  contents as an extra argument and return the whole updated buffer.
* Work-group ids and local ids are reconstructed from the global
  coordinates of the output voxel (`x = 32*get_group_id(0)+tIdx.x` gives
  `get_group_id(0) = x/32`, `tIdx.x = x%32`, and so on); the cooperative
  local-memory tiles (`l_Volume`, `l_Image`) are embedded as functions
  giving, per tile cell, the value the work-group's loading phase leaves
  there after the barrier.
-/

namespace Broccoli

/-- `Calculate3DIndex` from the source: `x + y * DATA_W + z * DATA_W * DATA_H`. -/
def Calculate3DIndex (x y z DATA_W DATA_H : ℤ) : ℤ :=
  x + y * DATA_W + z * DATA_W * DATA_H

/-- `Calculate4DIndex` from the source:
`x + y * DATA_W + z * DATA_W * DATA_H + t * DATA_W * DATA_H * DATA_D`. -/
def Calculate4DIndex (x y z t DATA_W DATA_H DATA_D : ℤ) : ℤ :=
  x + y * DATA_W + z * DATA_W * DATA_H + t * DATA_W * DATA_H * DATA_D

variable {K : Type*} [LinearOrderedField K]

/-! ## Separable 3D convolution (`SeparableConvolutionRows/Columns/Rods`)

Each kernel loads a halo-padded tile of the (certainty-weighted) volume into
local memory and then forms a 9-tap dot product against the 1D smoothing
filter.  `rowsTile`/`colsTile`/`rodsTile` give the contents of one cell of
the local array after the loading phase; the cell coordinates are the local
array indices of the source (`l_Volume[z][y][x]` becomes arguments
`c a tx` / `c a b` in the same order as the source subscripts). -/

/-- Contents of `l_Volume[c][a][tx]` in `SeparableConvolutionRows` for the
work-group `(gx, gy, gz)` (global sizes 32, 8, 8 per group along x, y, z).
The source initialises every cell to `0.0f` and then performs eight guarded
loads: slots `a < 8` hold the upper apron / first half (`y - 4` reads, with
an explicit `(y-4) >= 0` check) and slots `a ≥ 8` hold the second half /
lower apron (`y + 4` reads, no lower check since `y + 4 > 0` always); both
read `Volume[...] * Certainty[...]` at global coordinates
`(32*gx+tx, 8*gy+a-4, 8*gz+c)` at volume `t`. -/
def rowsTile (Volume : ℤ → ℤ → ℤ → ℤ → K) (Certainty : ℤ → ℤ → ℤ → K)
    (t DATA_W DATA_H DATA_D gx gy gz tx a c : ℤ) : K :=
  if a < 8 then
    (if 32*gx + tx < DATA_W ∧ 0 ≤ 8*gy + a - 4 ∧ 8*gy + a - 4 < DATA_H ∧ 8*gz + c < DATA_D then
      Volume (32*gx + tx) (8*gy + a - 4) (8*gz + c) t *
        Certainty (32*gx + tx) (8*gy + a - 4) (8*gz + c)
    else 0)
  else
    (if 32*gx + tx < DATA_W ∧ 8*gy + a - 4 < DATA_H ∧ 8*gz + c < DATA_D then
      Volume (32*gx + tx) (8*gy + a - 4) (8*gz + c) t *
        Certainty (32*gx + tx) (8*gy + a - 4) (8*gz + c)
    else 0)

/-- Value the `SeparableConvolutionRows` kernel stores at
`Filter_Response[Calculate3DIndex(x,y,z)]` (written only when
`x < DATA_W ∧ y < DATA_H ∧ z < DATA_D`): the nine-tap sum
`Σ_i l_Volume[tIdx.z'][tIdx.y + i][tIdx.x] * c_Smoothing_Filter_Y[8 - i]`
with `tIdx.x = x % 32`, `tIdx.y = y % 8`, and the z-slot of the voxel being
`z % 8` (the source's four unrolled z copies with `tIdx.z ∈ {0,1}` offset by
`0/2/4/6` jointly cover slots `0..7`). -/
def SeparableConvolutionRows (Volume : ℤ → ℤ → ℤ → ℤ → K) (Certainty : ℤ → ℤ → ℤ → K)
    (c_Smoothing_Filter_Y : ℤ → K) (t DATA_W DATA_H DATA_D x y z : ℤ) : K :=
  ∑ i ∈ Finset.range 9,
    rowsTile Volume Certainty t DATA_W DATA_H DATA_D
      (x / 32) (y / 8) (z / 8) (x % 32) (y % 8 + (i : ℤ)) (z % 8) *
    c_Smoothing_Filter_Y (8 - (i : ℤ))

/-- Contents of `l_Volume[c][a][b]` in `SeparableConvolutionColumns` for the
work-group `(gx, gy, gz)` (valid output sizes 24, 16, 8 per group).  The
eight guarded loads all read `Volume[x - 4, ...]` into x-slot `tIdx.x`, so
slot `b` holds global x-coordinate `24*gx + b - 4`, y-slot `a` holds
`16*gy + a`, z-slot `c` holds `8*gz + c`. -/
def colsTile (Volume3 : ℤ → ℤ → ℤ → K)
    (DATA_W DATA_H DATA_D gx gy gz b a c : ℤ) : K :=
  if 0 ≤ 24*gx + b - 4 ∧ 24*gx + b - 4 < DATA_W ∧ 16*gy + a < DATA_H ∧ 8*gz + c < DATA_D then
    Volume3 (24*gx + b - 4) (16*gy + a) (8*gz + c)
  else 0

/-- Value the `SeparableConvolutionColumns` kernel stores at
`Filter_Response[Calculate3DIndex(x,y,z)]` (written only by threads with
`tIdx.x < 24` and `x < DATA_W ∧ y < DATA_H ∧ z < DATA_D`):
`Σ_i l_Volume[tIdx.z'][tIdx.y'][tIdx.x + i] * c_Smoothing_Filter_X[8 - i]`. -/
def SeparableConvolutionColumns (Volume3 : ℤ → ℤ → ℤ → K)
    (c_Smoothing_Filter_X : ℤ → K) (t DATA_W DATA_H DATA_D x y z : ℤ) : K :=
  ∑ i ∈ Finset.range 9,
    colsTile Volume3 DATA_W DATA_H DATA_D
      (x / 24) (y / 16) (z / 8) (x % 24 + (i : ℤ)) (y % 16) (z % 8) *
    c_Smoothing_Filter_X (8 - (i : ℤ))

/-- Contents of `l_Volume[c][a][tx]` in `SeparableConvolutionRods` for the
work-group `(gx, gy, gz)` (valid output sizes 32, 8, 8 per group).  Slots
`c < 8` hold the above apron / first half (`z - 4` reads, with an explicit
`(z-4) >= 0` check); slots `c ≥ 8` hold the second half / below apron
(`z + 4` reads); both read the plain `Volume` (no certainty weighting) at
global coordinates `(32*gx+tx, 8*gy+a, 8*gz+c-4)`. -/
def rodsTile (Volume3 : ℤ → ℤ → ℤ → K)
    (DATA_W DATA_H DATA_D gx gy gz tx a c : ℤ) : K :=
  if c < 8 then
    (if 32*gx + tx < DATA_W ∧ 8*gy + a < DATA_H ∧ 0 ≤ 8*gz + c - 4 ∧ 8*gz + c - 4 < DATA_D then
      Volume3 (32*gx + tx) (8*gy + a) (8*gz + c - 4)
    else 0)
  else
    (if 32*gx + tx < DATA_W ∧ 8*gy + a < DATA_H ∧ 8*gz + c - 4 < DATA_D then
      Volume3 (32*gx + tx) (8*gy + a) (8*gz + c - 4)
    else 0)

/-- Value the `SeparableConvolutionRods` kernel stores at
`Filter_Response[Calculate4DIndex(x,y,z,t)]` (written only when
`x < DATA_W ∧ y < DATA_H ∧ z < DATA_D`):
`(Σ_i l_Volume[tIdx.z + i][tIdx.y'][tIdx.x] * c_Smoothing_Filter_Z[8 - i])
 / Smoothed_Certainty[Calculate3DIndex(x,y,z)]`. -/
def SeparableConvolutionRods (Volume3 : ℤ → ℤ → ℤ → K)
    (Smoothed_Certainty : ℤ → ℤ → ℤ → K)
    (c_Smoothing_Filter_Z : ℤ → K) (t DATA_W DATA_H DATA_D x y z : ℤ) : K :=
  (∑ i ∈ Finset.range 9,
    rodsTile Volume3 DATA_W DATA_H DATA_D
      (x / 32) (y / 8) (z / 8) (x % 32) (y % 8) (z % 8 + (i : ℤ)) *
    c_Smoothing_Filter_Z (8 - (i : ℤ))) / Smoothed_Certainty x y z

/-- Reference definition, following the spec's words: a naive, non-tiled
direct 1D convolution along the y axis with a length-9 filter and
zero-padding outside the volume: `out(x,y,z) = Σ_k f(k) · in(x, y+4-k, z)`
where out-of-bounds samples contribute exactly zero. -/
def naiveConvRows (g : ℤ → ℤ → ℤ → K) (f : ℤ → K) (DATA_H x y z : ℤ) : K :=
  ∑ k ∈ Finset.range 9,
    f (k : ℤ) * (if 0 ≤ y + 4 - (k : ℤ) ∧ y + 4 - (k : ℤ) < DATA_H then
      g x (y + 4 - (k : ℤ)) z else 0)

/-- Reference definition, following the spec's words: naive direct 1D
convolution along the x axis with zero-padding. -/
def naiveConvCols (g : ℤ → ℤ → ℤ → K) (f : ℤ → K) (DATA_W x y z : ℤ) : K :=
  ∑ k ∈ Finset.range 9,
    f (k : ℤ) * (if 0 ≤ x + 4 - (k : ℤ) ∧ x + 4 - (k : ℤ) < DATA_W then
      g (x + 4 - (k : ℤ)) y z else 0)

/-- Reference definition, following the spec's words: naive direct 1D
convolution along the z axis with zero-padding. -/
def naiveConvRods (g : ℤ → ℤ → ℤ → K) (f : ℤ → K) (DATA_D x y z : ℤ) : K :=
  ∑ k ∈ Finset.range 9,
    f (k : ℤ) * (if 0 ≤ z + 4 - (k : ℤ) ∧ z + 4 - (k : ℤ) < DATA_D then
      g x y (z + 4 - (k : ℤ)) else 0)

/-- The set of output positions the `SeparableConvolutionRows` kernel writes:
some thread (global ids `x = 32*gx+tx`, `y = 8*gy+ty`,
`z = 8*gz+tz + 2*k` for the four unrolled write branches `k = 0..3`)
reaches the guarded store `Filter_Response[Calculate3DIndex(X,Y,Z)] = sum`,
whose guard is `(x < DATA_W) && (y < DATA_H) && (z + 2k < DATA_D)`. -/
def SeparableConvolutionRowsWrites (DATA_W DATA_H DATA_D X Y Z : ℤ) : Prop :=
  ∃ gx tx gy ty gz tz k : ℤ,
    (0 ≤ gx ∧ 0 ≤ tx ∧ tx < 32 ∧ 0 ≤ gy ∧ 0 ≤ ty ∧ ty < 8 ∧
     0 ≤ gz ∧ 0 ≤ tz ∧ tz < 2 ∧ 0 ≤ k ∧ k < 4) ∧
    X = 32*gx + tx ∧ Y = 8*gy + ty ∧ Z = 8*gz + tz + 2*k ∧
    (X < DATA_W ∧ Y < DATA_H ∧ Z < DATA_D)

/-- The set of output positions the `SeparableConvolutionRods` kernel writes:
some thread (global ids `x = 32*gx+tx`, `y = 8*gy+ty + 2*k` for the four
unrolled write branches `k = 0..3`, `z = 8*gz+tz`) reaches the guarded store
`Filter_Response[Calculate4DIndex(X,Y,Z,t)] = sum / Smoothed_Certainty[...]`,
whose guard is `(x < DATA_W) && (y + 2k < DATA_H) && (z < DATA_D)`. -/
def SeparableConvolutionRodsWrites (DATA_W DATA_H DATA_D X Y Z : ℤ) : Prop :=
  ∃ gx tx gy ty gz tz k : ℤ,
    (0 ≤ gx ∧ 0 ≤ tx ∧ tx < 32 ∧ 0 ≤ gy ∧ 0 ≤ ty ∧ ty < 2 ∧
     0 ≤ gz ∧ 0 ≤ tz ∧ tz < 8 ∧ 0 ≤ k ∧ k < 4) ∧
    X = 32*gx + tx ∧ Y = 8*gy + ty + 2*k ∧ Z = 8*gz + tz ∧
    (X < DATA_W ∧ Y < DATA_H ∧ Z < DATA_D)

/-! ## Non-separable 3D convolution with three complex quadrature filters

`Nonseparable3DConvolutionComplexThreeQuadratureFilters` processes, per
launch, one z-slab: each work-group (`HALO = 3`, valid sizes 90 × 58) loads
the zero-padded 2D slice `z + z_offset` into the `l_Image[64][96]` tile and
every in-bounds output pixel accumulates (`+=`) the unrolled 7×7 two-index
stencil of `Conv_2D_Unrolled_7x7_ThreeFilters_` into the three complex
response buffers. -/

/-- The source's `float6` return type of `Conv_2D_Unrolled_7x7_ThreeFilters_`. -/
structure float6 (K : Type*) where
  a : K
  b : K
  c : K
  d : K
  e : K
  f : K

/-- One real 7×7 stencil of the unrolled convolution: the source's 49
unrolled taps `pixel = image[y + fy'][x + fx']` (`fx', fy' ∈ [-3, 3]`) with
coefficient `Filter[(3 - fy')*7 + (3 - fx')]`, folded into a double sum
(`fy = fy' + 3`, `fx = fx' + 3`). -/
def Conv_2D_Unrolled_7x7 (image : ℤ → ℤ → K) (y x : ℤ) (Filter : ℤ → K) : K :=
  ∑ fy ∈ Finset.range 7, ∑ fx ∈ Finset.range 7,
    image (y + (fy : ℤ) - 3) (x + (fx : ℤ) - 3) *
      Filter ((6 - (fy : ℤ)) * 7 + (6 - (fx : ℤ)))

/-- `Conv_2D_Unrolled_7x7_ThreeFilters_` from the source: the six
accumulators `sum.a .. sum.f` each collect the same 49 pixels weighted by
the corresponding coefficient array (real and imaginary parts of the three
quadrature filters). -/
def Conv_2D_Unrolled_7x7_ThreeFilters_ (image : ℤ → ℤ → K) (y x : ℤ)
    (Filter_1_Real Filter_1_Imag Filter_2_Real Filter_2_Imag
     Filter_3_Real Filter_3_Imag : ℤ → K) : float6 K :=
  { a := Conv_2D_Unrolled_7x7 image y x Filter_1_Real
    b := Conv_2D_Unrolled_7x7 image y x Filter_1_Imag
    c := Conv_2D_Unrolled_7x7 image y x Filter_2_Real
    d := Conv_2D_Unrolled_7x7 image y x Filter_2_Imag
    e := Conv_2D_Unrolled_7x7 image y x Filter_3_Real
    f := Conv_2D_Unrolled_7x7 image y x Filter_3_Imag }

/-- Contents of `l_Image[a][b]` after the loading phase of
`Nonseparable3DConvolutionComplexThreeQuadratureFilters` for work-group
`(gx, gy)` (`x = 90*gx + tIdx.x`, `y = 58*gy + tIdx.y`,
local size 32 × 32).  The six guarded loads cover cell `(a, b)` with the
value `Volume[90*gx + b - HALO, 58*gy + a - HALO, z + z_offset]`; the cell
keeps its reset value `0.0f` when the top-level `(z + z_offset)` range check
or the per-load coordinate checks fail (the omitted `>= 0` checks of the
`+32`/`+64` loads hold automatically since those coordinates are ≥ 29). -/
def lImage (Volume3 : ℤ → ℤ → ℤ → K)
    (DATA_W DATA_H DATA_D z z_offset gx gy a b : ℤ) : K :=
  if 0 ≤ z + z_offset ∧ z + z_offset < DATA_D ∧
     0 ≤ 90*gx + b - 3 ∧ 90*gx + b - 3 < DATA_W ∧
     0 ≤ 58*gy + a - 3 ∧ 58*gy + a - 3 < DATA_H then
    Volume3 (90*gx + b - 3) (58*gy + a - 3) (z + z_offset)
  else 0

/-- Per-launch contribution of
`Nonseparable3DConvolutionComplexThreeQuadratureFilters` at the in-bounds
output voxel `(X, Y, z)`: the write branch covering `(X, Y)` evaluates
`Conv_2D_Unrolled_7x7_ThreeFilters_(l_Image, tIdx.y + dy + HALO,
tIdx.x + dx + HALO, ...)`, whose tile coordinates equal
`(Y % 58 + 3, X % 90 + 3)` for every one of the six branches. -/
def Nonseparable3DConvolutionComplexThreeQuadratureFilters
    (Volume3 : ℤ → ℤ → ℤ → K)
    (c_Quadrature_Filter_1_Real c_Quadrature_Filter_1_Imag
     c_Quadrature_Filter_2_Real c_Quadrature_Filter_2_Imag
     c_Quadrature_Filter_3_Real c_Quadrature_Filter_3_Imag : ℤ → K)
    (z_offset DATA_W DATA_H DATA_D X Y z : ℤ) : float6 K :=
  Conv_2D_Unrolled_7x7_ThreeFilters_
    (lImage Volume3 DATA_W DATA_H DATA_D z z_offset (X / 90) (Y / 58))
    (Y % 58 + 3) (X % 90 + 3)
    c_Quadrature_Filter_1_Real c_Quadrature_Filter_1_Imag
    c_Quadrature_Filter_2_Real c_Quadrature_Filter_2_Imag
    c_Quadrature_Filter_3_Real c_Quadrature_Filter_3_Imag

/-- The host-side z-slab accumulation: the three complex (`float2`) filter
response buffers at one voxel, after invoking the kernel once per `z_offset`
in `z_offsets` (each launch supplies the coefficient plane families at that
offset) and accumulating with `+=` as the kernel does. -/
def nonseparableZSlabAccumulation (Volume3 : ℤ → ℤ → ℤ → K)
    (F1r F1i F2r F2i F3r F3i : ℤ → ℤ → K)
    (DATA_W DATA_H DATA_D X Y z : ℤ) (z_offsets : List ℤ)
    (init : (K × K) × (K × K) × (K × K)) : (K × K) × (K × K) × (K × K) :=
  z_offsets.foldl
    (fun acc zo =>
      let temp := Nonseparable3DConvolutionComplexThreeQuadratureFilters Volume3
        (F1r zo) (F1i zo) (F2r zo) (F2i zo) (F3r zo) (F3i zo)
        zo DATA_W DATA_H DATA_D X Y z
      ((acc.1.1 + temp.a, acc.1.2 + temp.b),
       (acc.2.1.1 + temp.c, acc.2.1.2 + temp.d),
       (acc.2.2.1 + temp.e, acc.2.2.2 + temp.f)))
    init

/-- Reference definition, following the spec's words: the full 3D direct
convolution of the volume with a 7×7×7 filter, where the filter's
coefficient plane for depth offset `zo ∈ [-3, 3]` is the 7×7 coefficient
array `Fp (zo)` supplied to the kernel launch with `z_offset = zo`
(in-plane indexing as in `Conv_2D_Unrolled_7x7`). -/
def directConv3D (Volume3 : ℤ → ℤ → ℤ → K) (Fp : ℤ → ℤ → K) (X Y z : ℤ) : K :=
  ∑ zo ∈ Finset.Icc (-3 : ℤ) 3, ∑ fy ∈ Finset.range 7, ∑ fx ∈ Finset.range 7,
    Volume3 (X + (fx : ℤ) - 3) (Y + (fy : ℤ) - 3) (z + zo) *
      Fp zo ((6 - (fy : ℤ)) * 7 + (6 - (fx : ℤ)))

/-! ## AR(4) temporal whitening / unwhitening

Per in-mask voxel, `ApplyWhiteningAR4` runs over the time series with a
4-term sliding window of raw input values; `GeneratePermutedVolumesFirstLevel`
reads the whitened series in permuted order and rebuilds a series with a
4-term sliding window of its own previous outputs. -/

/-- The whitened time series computed by `ApplyWhiteningAR4` at one voxel.
The source initialises `old_value_1 = 0.0f` (the read of `fMRI_Volumes[...,0]`
is commented out), writes the four boundary outputs explicitly, and in the
loop (`t ≥ 4`) subtracts `alphas.x/y/z/w` times the previous four *input*
values, where the value playing the role of `y(0)` is that initial `0.0f`
(hence the `if t = 0` guard on the oldest tap below). -/
def ApplyWhiteningAR4 (y : ℕ → K) (a1 a2 a3 a4 : K) : ℕ → K
  | 0 => 0
  | 1 => y 1 - a1 * 0
  | 2 => y 2 - a1 * y 1 - a2 * 0
  | 3 => y 3 - a1 * y 2 - a2 * y 1 - a3 * 0
  | (t + 4) =>
    y (t + 4) - a1 * y (t + 3) - a2 * y (t + 2) - a3 * y (t + 1) -
      a4 * (if t = 0 then 0 else y t)

/-- The sliding window `(old_value_1, old_value_2, old_value_3, old_value_4)`
of `GeneratePermutedVolumesFirstLevel` at entry to loop iteration `t = n + 4`:
initially the four explicitly computed outputs for `t = 0..3`, thereafter
shifted by one with the freshly computed `old_value_5` appended.  `w` is the
whitened input buffer and `perm` the permutation vector. -/
def genWindow (w : ℕ → K) (a1 a2 a3 a4 : K) (perm : ℕ → ℕ) : ℕ → K × K × K × K
  | 0 =>
    let v1 := w (perm 0)
    let v2 := a1 * v1 + w (perm 1)
    let v3 := a1 * v2 + a2 * v1 + w (perm 2)
    let v4 := a1 * v3 + a2 * v2 + a3 * v1 + w (perm 3)
    (v1, v2, v3, v4)
  | (n + 1) =>
    let prev := genWindow w a1 a2 a3 a4 perm n
    let o1 := prev.1
    let o2 := prev.2.1
    let o3 := prev.2.2.1
    let o4 := prev.2.2.2
    (o2, o3, o4, a1 * o1 + a2 * o2 + a3 * o3 + a4 * o4 + w (perm (n + 4)))

/-- Value `GeneratePermutedVolumesFirstLevel` stores at time `t` of
`Permuted_fMRI_Volumes` for an in-mask voxel: times `0..3` are the four
explicit initial outputs; time `t = n + 4` is the `old_value_5` computed at
loop iteration `n` (note the source loop multiplies `alphas.x` by
`old_value_1`, the *oldest* window entry). -/
def GeneratePermutedVolumesFirstLevel (w : ℕ → K) (a1 a2 a3 a4 : K)
    (perm : ℕ → ℕ) : ℕ → K
  | 0 => (genWindow w a1 a2 a3 a4 perm 0).1
  | 1 => (genWindow w a1 a2 a3 a4 perm 0).2.1
  | 2 => (genWindow w a1 a2 a3 a4 perm 0).2.2.1
  | 3 => (genWindow w a1 a2 a3 a4 perm 0).2.2.2
  | (n + 4) => (genWindow w a1 a2 a3 a4 perm (n + 1)).2.2.2

/-- The `ApplyWhiteningAR4` kernel as a buffer transform at one voxel: when
`Mask[...] != 1.0f` the kernel returns without writing anything, leaving
`Whitened_fMRI_Volumes` untouched; otherwise it overwrites time points
`t < DATA_T` with the whitened series. -/
def ApplyWhiteningAR4Kernel (whitenedOld : ℕ → K) (y : ℕ → K)
    (a1 a2 a3 a4 Mask : K) (DATA_T : ℕ) : ℕ → K :=
  if Mask ≠ 1 then whitenedOld
  else fun t => if t < DATA_T then ApplyWhiteningAR4 y a1 a2 a3 a4 t else whitenedOld t

/-- The `GeneratePermutedVolumesFirstLevel` kernel as a buffer transform at
one voxel: when `Mask[...] != 1.0f` the kernel returns without writing,
leaving `Permuted_fMRI_Volumes` untouched. -/
def GeneratePermutedVolumesFirstLevelKernel (permutedOld : ℕ → K) (w : ℕ → K)
    (a1 a2 a3 a4 Mask : K) (perm : ℕ → ℕ) (DATA_T : ℕ) : ℕ → K :=
  if Mask ≠ 1 then permutedOld
  else fun t =>
    if t < DATA_T then GeneratePermutedVolumesFirstLevel w a1 a2 a3 a4 perm t
    else permutedOld t

/-! ## 4×4 determinant / inverse and AR(4) model estimation -/

/-- `Determinant_` from the source (cofactor expansion of a 4×4 determinant,
transcribed term by term). -/
def Determinant_ (Cxx : Fin 4 → Fin 4 → K) : K :=
  Cxx 0 3 * Cxx 1 2 * Cxx 2 1 * Cxx 3 0 - Cxx 0 2 * Cxx 1 3 * Cxx 2 1 * Cxx 3 0 -
    Cxx 0 3 * Cxx 1 1 * Cxx 2 2 * Cxx 3 0 +
    Cxx 0 1 * Cxx 1 3 * Cxx 2 2 * Cxx 3 0 +
    Cxx 0 2 * Cxx 1 1 * Cxx 2 3 * Cxx 3 0 -
    Cxx 0 1 * Cxx 1 2 * Cxx 2 3 * Cxx 3 0 -
    Cxx 0 3 * Cxx 1 2 * Cxx 2 0 * Cxx 3 1 +
    Cxx 0 2 * Cxx 1 3 * Cxx 2 0 * Cxx 3 1 +
    Cxx 0 3 * Cxx 1 0 * Cxx 2 2 * Cxx 3 1 -
    Cxx 0 0 * Cxx 1 3 * Cxx 2 2 * Cxx 3 1 -
    Cxx 0 2 * Cxx 1 0 * Cxx 2 3 * Cxx 3 1 +
    Cxx 0 0 * Cxx 1 2 * Cxx 2 3 * Cxx 3 1 +
    Cxx 0 3 * Cxx 1 1 * Cxx 2 0 * Cxx 3 2 -
    Cxx 0 1 * Cxx 1 3 * Cxx 2 0 * Cxx 3 2 -
    Cxx 0 3 * Cxx 1 0 * Cxx 2 1 * Cxx 3 2 +
    Cxx 0 0 * Cxx 1 3 * Cxx 2 1 * Cxx 3 2 +
    Cxx 0 1 * Cxx 1 0 * Cxx 2 3 * Cxx 3 2 -
    Cxx 0 0 * Cxx 1 1 * Cxx 2 3 * Cxx 3 2 -
    Cxx 0 2 * Cxx 1 1 * Cxx 2 0 * Cxx 3 3 +
    Cxx 0 1 * Cxx 1 2 * Cxx 2 0 * Cxx 3 3 +
    Cxx 0 2 * Cxx 1 0 * Cxx 2 1 * Cxx 3 3 -
    Cxx 0 0 * Cxx 1 2 * Cxx 2 1 * Cxx 3 3 -
    Cxx 0 1 * Cxx 1 0 * Cxx 2 2 * Cxx 3 3 +
    Cxx 0 0 * Cxx 1 1 * Cxx 2 2 * Cxx 3 3

/-- `Invert_4x4` from the source: the sixteen cofactor-numerator expressions,
each divided by `determinant = Determinant_(Cxx) + 0.001f`. -/
def Invert_4x4 (Cxx : Fin 4 → Fin 4 → K) : Fin 4 → Fin 4 → K :=
  fun i j =>
    (match i, j with
     | 0, 0 => Cxx 1 2 * Cxx 2 3 * Cxx 3 1 - Cxx 1 3 * Cxx 2 2 * Cxx 3 1 + Cxx 1 3 * Cxx 2 1 * Cxx 3 2 -
        Cxx 1 1 * Cxx 2 3 * Cxx 3 2 - Cxx 1 2 * Cxx 2 1 * Cxx 3 3 + Cxx 1 1 * Cxx 2 2 * Cxx 3 3
     | 0, 1 => Cxx 0 3 * Cxx 2 2 * Cxx 3 1 - Cxx 0 2 * Cxx 2 3 * Cxx 3 1 - Cxx 0 3 * Cxx 2 1 * Cxx 3 2 +
        Cxx 0 1 * Cxx 2 3 * Cxx 3 2 + Cxx 0 2 * Cxx 2 1 * Cxx 3 3 - Cxx 0 1 * Cxx 2 2 * Cxx 3 3
     | 0, 2 => Cxx 0 2 * Cxx 1 3 * Cxx 3 1 - Cxx 0 3 * Cxx 1 2 * Cxx 3 1 + Cxx 0 3 * Cxx 1 1 * Cxx 3 2 -
        Cxx 0 1 * Cxx 1 3 * Cxx 3 2 - Cxx 0 2 * Cxx 1 1 * Cxx 3 3 + Cxx 0 1 * Cxx 1 2 * Cxx 3 3
     | 0, 3 => Cxx 0 3 * Cxx 1 2 * Cxx 2 1 - Cxx 0 2 * Cxx 1 3 * Cxx 2 1 - Cxx 0 3 * Cxx 1 1 * Cxx 2 2 +
        Cxx 0 1 * Cxx 1 3 * Cxx 2 2 + Cxx 0 2 * Cxx 1 1 * Cxx 2 3 - Cxx 0 1 * Cxx 1 2 * Cxx 2 3
     | 1, 0 => Cxx 1 3 * Cxx 2 2 * Cxx 3 0 - Cxx 1 2 * Cxx 2 3 * Cxx 3 0 - Cxx 1 3 * Cxx 2 0 * Cxx 3 2 +
        Cxx 1 0 * Cxx 2 3 * Cxx 3 2 + Cxx 1 2 * Cxx 2 0 * Cxx 3 3 - Cxx 1 0 * Cxx 2 2 * Cxx 3 3
     | 1, 1 => Cxx 0 2 * Cxx 2 3 * Cxx 3 0 - Cxx 0 3 * Cxx 2 2 * Cxx 3 0 + Cxx 0 3 * Cxx 2 0 * Cxx 3 2 -
        Cxx 0 0 * Cxx 2 3 * Cxx 3 2 - Cxx 0 2 * Cxx 2 0 * Cxx 3 3 + Cxx 0 0 * Cxx 2 2 * Cxx 3 3
     | 1, 2 => Cxx 0 3 * Cxx 1 2 * Cxx 3 0 - Cxx 0 2 * Cxx 1 3 * Cxx 3 0 - Cxx 0 3 * Cxx 1 0 * Cxx 3 2 +
        Cxx 0 0 * Cxx 1 3 * Cxx 3 2 + Cxx 0 2 * Cxx 1 0 * Cxx 3 3 - Cxx 0 0 * Cxx 1 2 * Cxx 3 3
     | 1, 3 => Cxx 0 2 * Cxx 1 3 * Cxx 2 0 - Cxx 0 3 * Cxx 1 2 * Cxx 2 0 + Cxx 0 3 * Cxx 1 0 * Cxx 2 2 -
        Cxx 0 0 * Cxx 1 3 * Cxx 2 2 - Cxx 0 2 * Cxx 1 0 * Cxx 2 3 + Cxx 0 0 * Cxx 1 2 * Cxx 2 3
     | 2, 0 => Cxx 1 1 * Cxx 2 3 * Cxx 3 0 - Cxx 1 3 * Cxx 2 1 * Cxx 3 0 + Cxx 1 3 * Cxx 2 0 * Cxx 3 1 -
        Cxx 1 0 * Cxx 2 3 * Cxx 3 1 - Cxx 1 1 * Cxx 2 0 * Cxx 3 3 + Cxx 1 0 * Cxx 2 1 * Cxx 3 3
     | 2, 1 => Cxx 0 3 * Cxx 2 1 * Cxx 3 0 - Cxx 0 1 * Cxx 2 3 * Cxx 3 0 - Cxx 0 3 * Cxx 2 0 * Cxx 3 1 +
        Cxx 0 0 * Cxx 2 3 * Cxx 3 1 + Cxx 0 1 * Cxx 2 0 * Cxx 3 3 - Cxx 0 0 * Cxx 2 1 * Cxx 3 3
     | 2, 2 => Cxx 0 1 * Cxx 1 3 * Cxx 3 0 - Cxx 0 3 * Cxx 1 1 * Cxx 3 0 + Cxx 0 3 * Cxx 1 0 * Cxx 3 1 -
        Cxx 0 0 * Cxx 1 3 * Cxx 3 1 - Cxx 0 1 * Cxx 1 0 * Cxx 3 3 + Cxx 0 0 * Cxx 1 1 * Cxx 3 3
     | 2, 3 => Cxx 0 3 * Cxx 1 1 * Cxx 2 0 - Cxx 0 1 * Cxx 1 3 * Cxx 2 0 - Cxx 0 3 * Cxx 1 0 * Cxx 2 1 +
        Cxx 0 0 * Cxx 1 3 * Cxx 2 1 + Cxx 0 1 * Cxx 1 0 * Cxx 2 3 - Cxx 0 0 * Cxx 1 1 * Cxx 2 3
     | 3, 0 => Cxx 1 2 * Cxx 2 1 * Cxx 3 0 - Cxx 1 1 * Cxx 2 2 * Cxx 3 0 - Cxx 1 2 * Cxx 2 0 * Cxx 3 1 +
        Cxx 1 0 * Cxx 2 2 * Cxx 3 1 + Cxx 1 1 * Cxx 2 0 * Cxx 3 2 - Cxx 1 0 * Cxx 2 1 * Cxx 3 2
     | 3, 1 => Cxx 0 1 * Cxx 2 2 * Cxx 3 0 - Cxx 0 2 * Cxx 2 1 * Cxx 3 0 + Cxx 0 2 * Cxx 2 0 * Cxx 3 1 -
        Cxx 0 0 * Cxx 2 2 * Cxx 3 1 - Cxx 0 1 * Cxx 2 0 * Cxx 3 2 + Cxx 0 0 * Cxx 2 1 * Cxx 3 2
     | 3, 2 => Cxx 0 2 * Cxx 1 1 * Cxx 3 0 - Cxx 0 1 * Cxx 1 2 * Cxx 3 0 - Cxx 0 2 * Cxx 1 0 * Cxx 3 1 +
        Cxx 0 0 * Cxx 1 2 * Cxx 3 1 + Cxx 0 1 * Cxx 1 0 * Cxx 3 2 - Cxx 0 0 * Cxx 1 1 * Cxx 3 2
     | 3, 3 => Cxx 0 1 * Cxx 1 2 * Cxx 2 0 - Cxx 0 2 * Cxx 1 1 * Cxx 2 0 + Cxx 0 2 * Cxx 1 0 * Cxx 2 1 -
        Cxx 0 0 * Cxx 1 2 * Cxx 2 1 - Cxx 0 1 * Cxx 1 0 * Cxx 2 2 + Cxx 0 0 * Cxx 1 1 * Cxx 2 2) /
    (Determinant_ Cxx + 1 / 1000)

/-- `EstimateAR4Models` at one voxel: masked-out voxels (`Mask != 1.0f`) get
all-zero AR coefficient estimates; otherwise the lagged autocovariances
`c0..c4` are accumulated (the pre-loop part always covers `t = 0..3`, the
loop the lags at `t = 4..DATA_T-1`), normalised by `DATA_T - 1 .. DATA_T - 5`,
and the Yule-Walker-like system is solved with `Invert_4x4` applied to the
ε-loaded symmetric lag matrix; if `c0 == 0.0f` the estimates are zero.
Returns `(AR1, AR2, AR3, AR4)`. -/
def EstimateAR4Models (y : ℕ → K) (Mask : K) (DATA_T : ℕ) : K × K × K × K :=
  if Mask ≠ 1 then (0, 0, 0, 0)
  else
    let c0 := (y 0 * y 0 + y 1 * y 1 + y 2 * y 2 + y 3 * y 3 +
      ∑ t ∈ Finset.Ico 4 DATA_T, y t * y t) / ((DATA_T : K) - 1)
    let c1 := (y 1 * y 0 + y 2 * y 1 + y 3 * y 2 +
      ∑ t ∈ Finset.Ico 4 DATA_T, y t * y (t - 1)) / ((DATA_T : K) - 2)
    let c2 := (y 2 * y 0 + y 3 * y 1 +
      ∑ t ∈ Finset.Ico 4 DATA_T, y t * y (t - 2)) / ((DATA_T : K) - 3)
    let c3 := (y 3 * y 0 +
      ∑ t ∈ Finset.Ico 4 DATA_T, y t * y (t - 3)) / ((DATA_T : K) - 4)
    let c4 := (∑ t ∈ Finset.Ico 4 DATA_T, y t * y (t - 4)) / ((DATA_T : K) - 5)
    if c0 ≠ 0 then
      let r1 := c1 / c0
      let r2 := c2 / c0
      let r3 := c3 / c0
      let r4 := c4 / c0
      let matrix : Fin 4 → Fin 4 → K :=
        ![![1, r1 + 1/1000, r2 + 1/1000, r3 + 1/1000],
          ![r1 + 1/1000, 1, r1 + 1/1000, r2 + 1/1000],
          ![r2 + 1/1000, r1 + 1/1000, 1, r1 + 1/1000],
          ![r3 + 1/1000, r2 + 1/1000, r1 + 1/1000, 1]]
      let inv_matrix := Invert_4x4 matrix
      (inv_matrix 0 0 * r1 + inv_matrix 0 1 * r2 + inv_matrix 0 2 * r3 + inv_matrix 0 3 * r4,
       inv_matrix 1 0 * r1 + inv_matrix 1 1 * r2 + inv_matrix 1 2 * r3 + inv_matrix 1 3 * r4,
       inv_matrix 2 0 * r1 + inv_matrix 2 1 * r2 + inv_matrix 2 2 * r3 + inv_matrix 2 3 * r4,
       inv_matrix 3 0 * r1 + inv_matrix 3 1 * r2 + inv_matrix 3 2 * r3 + inv_matrix 3 3 * r4)
    else (0, 0, 0, 0)

/-! ## GLM kernels

All buffers are per-voxel slices: `Y v` is `Volumes[Calculate4DIndex(x,y,z,v)]`,
`P r v` is `c_xtxxt_GLM[NUMBER_OF_VOLUMES * r + v]`, `X r v` is
`c_X_GLM[NUMBER_OF_VOLUMES * r + v]`, `Con c r` is
`c_Contrasts[NUMBER_OF_REGRESSORS * c + r]`.  The device `rsqrt` builtin is
an uninterpreted parameter.  Each kernel's mask test is the named guard it
uses in the source (`Mask[...] != 1.0f` at the quoted line). -/

/-- The voxel-skip guard of `CalculateBetaValuesGLM` (source line 9684):
`Mask[Calculate3DIndex(x,y,z,...)] != 1.0f`. -/
abbrev CalculateBetaValuesGLM_skips (Mask : K) : Prop := Mask ≠ 1

/-- The voxel-skip guard of `CalculateStatisticalMapsGLM` (source line 9739):
`Mask[Calculate3DIndex(x,y,z,...)] != 1.0f`. -/
abbrev CalculateStatisticalMapsGLM_skips (Mask : K) : Prop := Mask ≠ 1

/-- The voxel-skip guard of `CalculateStatisticalMapsGLMPermutation`
(source line 9838): `Mask[Calculate3DIndex(x,y,z,...)] != 1.0f`. -/
abbrev CalculateStatisticalMapsGLMPermutation_skips (Mask : K) : Prop := Mask ≠ 1

/-- The voxel-skip guard of `RemoveLinearFit` (source line 9928):
`Mask[Calculate3DIndex(x,y,z,...)] != 1.0f`. -/
abbrev RemoveLinearFit_skips (Mask : K) : Prop := Mask ≠ 1

/-- `CalculateBetaValuesGLM` at one voxel, as a transform of the per-voxel
`Beta_Volumes` slice: a skipped voxel gets `0.0f` at every regressor
`r < NUMBER_OF_REGRESSORS`; otherwise `beta[r] = Σ_v Y(v) · P(r, v)`. -/
def CalculateBetaValuesGLM (betaOld : ℕ → K) (Y : ℕ → K) (Mask : K)
    (P : ℕ → ℕ → K) (NUMBER_OF_VOLUMES NUMBER_OF_REGRESSORS : ℕ) : ℕ → K :=
  if CalculateBetaValuesGLM_skips Mask then
    fun r => if r < NUMBER_OF_REGRESSORS then 0 else betaOld r
  else
    fun r => if r < NUMBER_OF_REGRESSORS then
      ∑ v ∈ Finset.range NUMBER_OF_VOLUMES, Y v * P r v
    else betaOld r

/-- The five output buffers of `CalculateStatisticalMapsGLM` at one voxel. -/
structure GLMStatOut (K : Type*) where
  StatisticalMaps : ℕ → K
  BetaContrasts : ℕ → K
  ResidualVariances : K
  BetaVolumesOut : ℕ → K
  Residuals : ℕ → K

/-- `CalculateStatisticalMapsGLM` at one voxel.  A skipped voxel gets zeros
in all five outputs (including zeroing the `Beta_Volumes` buffer).  An
in-mask voxel loads `beta` from `Beta_Volumes`, forms the residuals
`eps(v) = Y(v) - Σ_r X(r,v)·beta(r)`, their mean over the volumes, the
variance normalised by `NUMBER_OF_VOLUMES - 1`, and per contrast the value
`(Σ_r Con(c,r)·beta(r)) * rsqrt(vareps * ctxtxc(c))`. -/
def CalculateStatisticalMapsGLM (statOld bconOld : ℕ → K) (betaVol resOld : ℕ → K)
    (Y : ℕ → K) (Mask : K) (X Con : ℕ → ℕ → K) (ctxtxc : ℕ → K) (rsqrt : K → K)
    (NUMBER_OF_VOLUMES NUMBER_OF_REGRESSORS NUMBER_OF_CONTRASTS : ℕ) : GLMStatOut K :=
  if CalculateStatisticalMapsGLM_skips Mask then
    { StatisticalMaps := fun c => if c < NUMBER_OF_CONTRASTS then 0 else statOld c
      BetaContrasts := fun c => if c < NUMBER_OF_CONTRASTS then 0 else bconOld c
      ResidualVariances := 0
      BetaVolumesOut := fun r => if r < NUMBER_OF_REGRESSORS then 0 else betaVol r
      Residuals := fun v => if v < NUMBER_OF_VOLUMES then 0 else resOld v }
  else
    let eps := fun v => Y v - ∑ r ∈ Finset.range NUMBER_OF_REGRESSORS, X r v * betaVol r
    let meaneps := (∑ v ∈ Finset.range NUMBER_OF_VOLUMES, eps v) / (NUMBER_OF_VOLUMES : K)
    let vareps := (∑ v ∈ Finset.range NUMBER_OF_VOLUMES,
      (eps v - meaneps) * (eps v - meaneps)) / ((NUMBER_OF_VOLUMES : K) - 1)
    { StatisticalMaps := fun c => if c < NUMBER_OF_CONTRASTS then
        (∑ r ∈ Finset.range NUMBER_OF_REGRESSORS, Con c r * betaVol r) *
          rsqrt (vareps * ctxtxc c)
      else statOld c
      BetaContrasts := fun c => if c < NUMBER_OF_CONTRASTS then
        ∑ r ∈ Finset.range NUMBER_OF_REGRESSORS, Con c r * betaVol r
      else bconOld c
      ResidualVariances := vareps
      BetaVolumesOut := betaVol
      Residuals := fun v => if v < NUMBER_OF_VOLUMES then eps v else resOld v }

/-- `CalculateStatisticalMapsGLMPermutation` at one voxel: a skipped voxel
gets zeros in `Statistical_Maps`; otherwise betas are recomputed from the
pseudo-inverse `P` and the t-values formed as in
`CalculateStatisticalMapsGLM`. -/
def CalculateStatisticalMapsGLMPermutation (statOld : ℕ → K) (Y : ℕ → K)
    (Mask : K) (P X Con : ℕ → ℕ → K) (ctxtxc : ℕ → K) (rsqrt : K → K)
    (NUMBER_OF_VOLUMES NUMBER_OF_REGRESSORS NUMBER_OF_CONTRASTS : ℕ) : ℕ → K :=
  if CalculateStatisticalMapsGLMPermutation_skips Mask then
    fun c => if c < NUMBER_OF_CONTRASTS then 0 else statOld c
  else
    let beta := fun r => ∑ v ∈ Finset.range NUMBER_OF_VOLUMES, Y v * P r v
    let eps := fun v => Y v - ∑ r ∈ Finset.range NUMBER_OF_REGRESSORS, X r v * beta r
    let meaneps := (∑ v ∈ Finset.range NUMBER_OF_VOLUMES, eps v) / (NUMBER_OF_VOLUMES : K)
    let vareps := (∑ v ∈ Finset.range NUMBER_OF_VOLUMES,
      (eps v - meaneps) * (eps v - meaneps)) / ((NUMBER_OF_VOLUMES : K) - 1)
    fun c => if c < NUMBER_OF_CONTRASTS then
      (∑ r ∈ Finset.range NUMBER_OF_REGRESSORS, Con c r * beta r) *
        rsqrt (vareps * ctxtxc c)
    else statOld c

/-- `RemoveLinearFit` at one voxel: a skipped voxel gets `0.0f` at every
volume `v < NUMBER_OF_VOLUMES` of `Residual_Volumes`; otherwise
`eps(v) = Y(v) - Σ_r beta(r)·X_Detrend(r, v)`. -/
def RemoveLinearFit (resOld : ℕ → K) (Y : ℕ → K) (betaVol : ℕ → K) (Mask : K)
    (X_Detrend : ℕ → ℕ → K) (NUMBER_OF_VOLUMES NUMBER_OF_REGRESSORS : ℕ) : ℕ → K :=
  if RemoveLinearFit_skips Mask then
    fun v => if v < NUMBER_OF_VOLUMES then 0 else resOld v
  else
    fun v => if v < NUMBER_OF_VOLUMES then
      Y v - ∑ r ∈ Finset.range NUMBER_OF_REGRESSORS, betaVol r * X_Detrend r v
    else resOld v

/-! ## ThresholdVolume -/

/-- `ThresholdVolume` as a buffer transform: threads with in-bounds global
ids write `1.0f` where `Volume[...] >= threshold` and `0.001f` otherwise;
out-of-bounds positions are untouched (the kernel early-returns). -/
def ThresholdVolume (thresholdedOld : ℤ → ℤ → ℤ → K) (Volume3 : ℤ → ℤ → ℤ → K)
    (threshold : K) (DATA_W DATA_H DATA_D : ℤ) : ℤ → ℤ → ℤ → K :=
  fun x y z =>
    if 0 ≤ x ∧ x < DATA_W ∧ 0 ≤ y ∧ y < DATA_H ∧ 0 ≤ z ∧ z < DATA_D then
      (if Volume3 x y z ≥ threshold then 1 else 1 / 1000)
    else thresholdedOld x y z

/-! ## Theorems -/

theorem Calculate3DIndex_injective (DATA_W DATA_H : ℤ)
    (x y z x' y' z' : ℤ)
    (hx : 0 ≤ x) (hxW : x < DATA_W) (hy : 0 ≤ y) (hyH : y < DATA_H) (hz : 0 ≤ z)
    (hx' : 0 ≤ x') (hxW' : x' < DATA_W) (hy' : 0 ≤ y') (hyH' : y' < DATA_H) (hz' : 0 ≤ z')
    (h : Calculate3DIndex x y z DATA_W DATA_H = Calculate3DIndex x' y' z' DATA_W DATA_H) :
    x = x' ∧ y = y' ∧ z = z' := by
  unfold Calculate3DIndex at h
  have hW0 : 0 < DATA_W := lt_of_le_of_lt hx hxW
  have hH0 : 0 < DATA_H := lt_of_le_of_lt hy hyH
  have h' : x + DATA_W * (y + DATA_H * z) = x' + DATA_W * (y' + DATA_H * z') := by ring_nf; linarith [h]
  have hxx : x = x' := by
    have m1 : (x + DATA_W * (y + DATA_H * z)) % DATA_W = x := by
      rw [Int.add_mul_emod_self_left, Int.emod_eq_of_lt hx hxW]
    have m2 : (x' + DATA_W * (y' + DATA_H * z')) % DATA_W = x' := by
      rw [Int.add_mul_emod_self_left, Int.emod_eq_of_lt hx' hxW']
    rw [← m1, ← m2, h']
  have h2 : y + DATA_H * z = y' + DATA_H * z' := by
    have := h'
    rw [hxx] at this
    have hmul : DATA_W * (y + DATA_H * z) = DATA_W * (y' + DATA_H * z') := by linarith
    exact mul_left_cancel₀ (ne_of_gt hW0) hmul
  have hyy : y = y' := by
    have m1 : (y + DATA_H * z) % DATA_H = y := by
      rw [Int.add_mul_emod_self_left, Int.emod_eq_of_lt hy hyH]
    have m2 : (y' + DATA_H * z') % DATA_H = y' := by
      rw [Int.add_mul_emod_self_left, Int.emod_eq_of_lt hy' hyH']
    rw [← m1, ← m2, h2]
  refine ⟨hxx, hyy, ?_⟩
  have : DATA_H * z = DATA_H * z' := by rw [hyy] at h2; linarith
  exact mul_left_cancel₀ (ne_of_gt hH0) this

theorem rowsTile_eq (Volume : ℤ → ℤ → ℤ → ℤ → K) (Certainty : ℤ → ℤ → ℤ → K)
    (t DATA_W DATA_H DATA_D x y z i : ℤ)
    (hx : 0 ≤ x) (hy : 0 ≤ y) (hz : 0 ≤ z) (hi : 0 ≤ i)
    (hxW : x < DATA_W) (hzD : z < DATA_D) :
    rowsTile Volume Certainty t DATA_W DATA_H DATA_D
      (x / 32) (y / 8) (z / 8) (x % 32) (y % 8 + i) (z % 8) =
    (if 0 ≤ y + i - 4 ∧ y + i - 4 < DATA_H then
      Volume x (y + i - 4) z t * Certainty x (y + i - 4) z else 0) := by
  unfold rowsTile
  rw [show 32 * (x / 32) + x % 32 = x by omega,
      show 8 * (y / 8) + (y % 8 + i) - 4 = y + i - 4 by omega,
      show 8 * (z / 8) + z % 8 = z by omega]
  split_ifs <;> first | rfl | omega

theorem SeparableConvolutionRows_eq_naive
    (Volume : ℤ → ℤ → ℤ → ℤ → K) (Certainty : ℤ → ℤ → ℤ → K) (f : ℤ → K)
    (t DATA_W DATA_H DATA_D x y z : ℤ)
    (hx : 0 ≤ x) (hxW : x < DATA_W) (hy : 0 ≤ y) (hyH : y < DATA_H)
    (hz : 0 ≤ z) (hzD : z < DATA_D) :
    SeparableConvolutionRows Volume Certainty f t DATA_W DATA_H DATA_D x y z =
    naiveConvRows (fun a b c => Volume a b c t * Certainty a b c) f DATA_H x y z := by
  unfold SeparableConvolutionRows naiveConvRows
  conv_rhs => rw [← Finset.sum_range_reflect]
  refine Finset.sum_congr rfl ?_
  intro i hi
  have hi9 : i < 9 := Finset.mem_range.mp hi
  have hc : ((9 - 1 - i : ℕ) : ℤ) = 8 - (i : ℤ) := by omega
  rw [hc, rowsTile_eq Volume Certainty t DATA_W DATA_H DATA_D x y z (i : ℤ)
       hx hy hz (by positivity) hxW hzD,
     show y + 4 - (8 - (i : ℤ)) = y + (i : ℤ) - 4 by ring]
  exact mul_comm _ _

theorem colsTile_eq (Volume3 : ℤ → ℤ → ℤ → K)
    (DATA_W DATA_H DATA_D x y z i : ℤ)
    (hx : 0 ≤ x) (hy : 0 ≤ y) (hz : 0 ≤ z) (hi : 0 ≤ i)
    (hyH : y < DATA_H) (hzD : z < DATA_D) :
    colsTile Volume3 DATA_W DATA_H DATA_D
      (x / 24) (y / 16) (z / 8) (x % 24 + i) (y % 16) (z % 8) =
    (if 0 ≤ x + i - 4 ∧ x + i - 4 < DATA_W then Volume3 (x + i - 4) y z else 0) := by
  unfold colsTile
  rw [show 24 * (x / 24) + (x % 24 + i) - 4 = x + i - 4 by omega,
      show 16 * (y / 16) + y % 16 = y by omega,
      show 8 * (z / 8) + z % 8 = z by omega]
  split_ifs <;> first | rfl | omega

theorem SeparableConvolutionColumns_eq_naive
    (Volume3 : ℤ → ℤ → ℤ → K) (f : ℤ → K)
    (t DATA_W DATA_H DATA_D x y z : ℤ)
    (hx : 0 ≤ x) (hxW : x < DATA_W) (hy : 0 ≤ y) (hyH : y < DATA_H)
    (hz : 0 ≤ z) (hzD : z < DATA_D) :
    SeparableConvolutionColumns Volume3 f t DATA_W DATA_H DATA_D x y z =
    naiveConvCols Volume3 f DATA_W x y z := by
  unfold SeparableConvolutionColumns naiveConvCols
  conv_rhs => rw [← Finset.sum_range_reflect]
  refine Finset.sum_congr rfl ?_
  intro i hi
  have hi9 : i < 9 := Finset.mem_range.mp hi
  have hc : ((9 - 1 - i : ℕ) : ℤ) = 8 - (i : ℤ) := by omega
  rw [hc, colsTile_eq Volume3 DATA_W DATA_H DATA_D x y z (i : ℤ)
       hx hy hz (by positivity) hyH hzD,
     show x + 4 - (8 - (i : ℤ)) = x + (i : ℤ) - 4 by ring]
  exact mul_comm _ _

theorem rodsTile_eq (Volume3 : ℤ → ℤ → ℤ → K)
    (DATA_W DATA_H DATA_D x y z i : ℤ)
    (hx : 0 ≤ x) (hy : 0 ≤ y) (hz : 0 ≤ z) (hi : 0 ≤ i)
    (hxW : x < DATA_W) (hyH : y < DATA_H) :
    rodsTile Volume3 DATA_W DATA_H DATA_D
      (x / 32) (y / 8) (z / 8) (x % 32) (y % 8) (z % 8 + i) =
    (if 0 ≤ z + i - 4 ∧ z + i - 4 < DATA_D then Volume3 x y (z + i - 4) else 0) := by
  unfold rodsTile
  rw [show 32 * (x / 32) + x % 32 = x by omega,
      show 8 * (y / 8) + y % 8 = y by omega,
      show 8 * (z / 8) + (z % 8 + i) - 4 = z + i - 4 by omega]
  split_ifs <;> first | rfl | omega

theorem SeparableConvolutionRods_eq_naive
    (Volume3 : ℤ → ℤ → ℤ → K) (Smoothed_Certainty : ℤ → ℤ → ℤ → K) (f : ℤ → K)
    (t DATA_W DATA_H DATA_D x y z : ℤ)
    (hx : 0 ≤ x) (hxW : x < DATA_W) (hy : 0 ≤ y) (hyH : y < DATA_H)
    (hz : 0 ≤ z) (hzD : z < DATA_D) :
    SeparableConvolutionRods Volume3 Smoothed_Certainty f t DATA_W DATA_H DATA_D x y z =
    naiveConvRods Volume3 f DATA_D x y z / Smoothed_Certainty x y z := by
  unfold SeparableConvolutionRods
  congr 1
  unfold naiveConvRods
  conv_rhs => rw [← Finset.sum_range_reflect]
  refine Finset.sum_congr rfl ?_
  intro i hi
  have hi9 : i < 9 := Finset.mem_range.mp hi
  have hc : ((9 - 1 - i : ℕ) : ℤ) = 8 - (i : ℤ) := by omega
  rw [hc, rodsTile_eq Volume3 DATA_W DATA_H DATA_D x y z (i : ℤ)
       hx hy hz (by positivity) hxW hyH,
     show z + 4 - (8 - (i : ℤ)) = z + (i : ℤ) - 4 by ring]
  exact mul_comm _ _

theorem lImage_interior (Volume3 : ℤ → ℤ → ℤ → K)
    (DATA_W DATA_H DATA_D z z_offset X Y fy fx : ℤ)
    (hX3 : 3 ≤ X) (hXW : X + 3 < DATA_W) (hY3 : 3 ≤ Y) (hYH : Y + 3 < DATA_H)
    (hz3 : 3 ≤ z) (hzD : z + 3 < DATA_D)
    (hzo1 : -3 ≤ z_offset) (hzo2 : z_offset ≤ 3)
    (hfy : 0 ≤ fy) (hfy7 : fy ≤ 6) (hfx : 0 ≤ fx) (hfx7 : fx ≤ 6) :
    lImage Volume3 DATA_W DATA_H DATA_D z z_offset (X / 90) (Y / 58)
      (Y % 58 + fy) (X % 90 + fx) =
    Volume3 (X + fx - 3) (Y + fy - 3) (z + z_offset) := by
  unfold lImage
  rw [show 90 * (X / 90) + (X % 90 + fx) - 3 = X + fx - 3 by omega,
      show 58 * (Y / 58) + (Y % 58 + fy) - 3 = Y + fy - 3 by omega]
  exact if_pos (by omega)

theorem Conv_2D_Unrolled_7x7_interior (Volume3 : ℤ → ℤ → ℤ → K) (Filter : ℤ → K)
    (DATA_W DATA_H DATA_D z z_offset X Y : ℤ)
    (hX3 : 3 ≤ X) (hXW : X + 3 < DATA_W) (hY3 : 3 ≤ Y) (hYH : Y + 3 < DATA_H)
    (hz3 : 3 ≤ z) (hzD : z + 3 < DATA_D)
    (hzo1 : -3 ≤ z_offset) (hzo2 : z_offset ≤ 3) :
    Conv_2D_Unrolled_7x7
      (lImage Volume3 DATA_W DATA_H DATA_D z z_offset (X / 90) (Y / 58))
      (Y % 58 + 3) (X % 90 + 3) Filter =
    ∑ fy ∈ Finset.range 7, ∑ fx ∈ Finset.range 7,
      Volume3 (X + (fx : ℤ) - 3) (Y + (fy : ℤ) - 3) (z + z_offset) *
        Filter ((6 - (fy : ℤ)) * 7 + (6 - (fx : ℤ))) := by
  unfold Conv_2D_Unrolled_7x7
  refine Finset.sum_congr rfl ?_
  intro fy hfy
  refine Finset.sum_congr rfl ?_
  intro fx hfx
  have hfy7 : fy < 7 := Finset.mem_range.mp hfy
  have hfx7 : fx < 7 := Finset.mem_range.mp hfx
  rw [show Y % 58 + 3 + (fy : ℤ) - 3 = Y % 58 + (fy : ℤ) by ring,
      show X % 90 + 3 + (fx : ℤ) - 3 = X % 90 + (fx : ℤ) by ring,
      lImage_interior Volume3 DATA_W DATA_H DATA_D z z_offset X Y (fy : ℤ) (fx : ℤ)
        hX3 hXW hY3 hYH hz3 hzD hzo1 hzo2
        (by positivity) (by omega) (by positivity) (by omega)]

/-- C1: for every input volume and every interior output voxel (7×7×7
stencil support inside the volume), if the complex filter-response buffers
are zero before the first pass, then after invoking
`Nonseparable3DConvolutionComplexThreeQuadratureFilters` once per
`z_offset ∈ [-3, 3]` (the stencil's depth-7 support) the accumulated (`+=`)
value at that voxel equals the full 3D direct convolution of the volume
with each of the three complex 7×7×7 quadrature filters (whose depth-`zo`
coefficient plane is the 7×7 array supplied at the `z_offset = zo` launch). -/
theorem nonseparable_slab_sum_eq_direct_3D_conv
    (Volume3 : ℤ → ℤ → ℤ → K)
    (F1r F1i F2r F2i F3r F3i : ℤ → ℤ → K)
    (DATA_W DATA_H DATA_D X Y z : ℤ)
    (hX3 : 3 ≤ X) (hXW : X + 3 < DATA_W) (hY3 : 3 ≤ Y) (hYH : Y + 3 < DATA_H)
    (hz3 : 3 ≤ z) (hzD : z + 3 < DATA_D) :
    nonseparableZSlabAccumulation Volume3 F1r F1i F2r F2i F3r F3i
      DATA_W DATA_H DATA_D X Y z [-3, -2, -1, 0, 1, 2, 3] ((0, 0), (0, 0), (0, 0)) =
    ((directConv3D Volume3 F1r X Y z, directConv3D Volume3 F1i X Y z),
     (directConv3D Volume3 F2r X Y z, directConv3D Volume3 F2i X Y z),
     (directConv3D Volume3 F3r X Y z, directConv3D Volume3 F3i X Y z)) := by
  have hC : ∀ (F : ℤ → ℤ → K) (zo : ℤ), -3 ≤ zo → zo ≤ 3 →
      Conv_2D_Unrolled_7x7
        (lImage Volume3 DATA_W DATA_H DATA_D z zo (X / 90) (Y / 58))
        (Y % 58 + 3) (X % 90 + 3) (F zo) =
      ∑ fy ∈ Finset.range 7, ∑ fx ∈ Finset.range 7,
        Volume3 (X + (fx : ℤ) - 3) (Y + (fy : ℤ) - 3) (z + zo) *
          F zo ((6 - (fy : ℤ)) * 7 + (6 - (fx : ℤ))) :=
    fun F zo h1 h2 => Conv_2D_Unrolled_7x7_interior Volume3 (F zo)
      DATA_W DATA_H DATA_D z zo X Y hX3 hXW hY3 hYH hz3 hzD h1 h2
  have key : ∀ F : ℤ → ℤ → K,
      List.foldl (fun acc zo => acc + Conv_2D_Unrolled_7x7
        (lImage Volume3 DATA_W DATA_H DATA_D z zo (X / 90) (Y / 58))
        (Y % 58 + 3) (X % 90 + 3) (F zo)) (0 : K) [-3, -2, -1, 0, 1, 2, 3]
      = directConv3D Volume3 F X Y z := by
    intro F
    simp only [List.foldl_cons, List.foldl_nil]
    rw [hC F (-3) (by omega) (by omega), hC F (-2) (by omega) (by omega),
        hC F (-1) (by omega) (by omega), hC F 0 (by omega) (by omega),
        hC F 1 (by omega) (by omega), hC F 2 (by omega) (by omega),
        hC F 3 (by omega) (by omega)]
    unfold directConv3D
    rw [show Finset.Icc (-3 : ℤ) 3 = ({-3, -2, -1, 0, 1, 2, 3} : Finset ℤ) from by decide]
    rw [Finset.sum_insert (by decide), Finset.sum_insert (by decide),
        Finset.sum_insert (by decide), Finset.sum_insert (by decide),
        Finset.sum_insert (by decide), Finset.sum_insert (by decide),
        Finset.sum_singleton]
    ring
  have k1 := key F1r
  have k2 := key F1i
  have k3 := key F2r
  have k4 := key F2i
  have k5 := key F3r
  have k6 := key F3i
  simp only [List.foldl_cons, List.foldl_nil] at k1 k2 k3 k4 k5 k6
  simp only [nonseparableZSlabAccumulation, List.foldl_cons, List.foldl_nil,
    Nonseparable3DConvolutionComplexThreeQuadratureFilters,
    Conv_2D_Unrolled_7x7_ThreeFilters_, Prod.mk.injEq]
  exact ⟨⟨k1, k2⟩, ⟨k3, k4⟩, k5, k6⟩

theorem det_fin_four_expand (A : Matrix (Fin 4) (Fin 4) K) :
    A.det = A 0 0 * A 1 1 * A 2 2 * A 3 3 - A 0 0 * A 1 1 * A 2 3 * A 3 2
      - A 0 0 * A 1 2 * A 2 1 * A 3 3 + A 0 0 * A 1 2 * A 2 3 * A 3 1
      + A 0 0 * A 1 3 * A 2 1 * A 3 2 - A 0 0 * A 1 3 * A 2 2 * A 3 1
      - A 0 1 * A 1 0 * A 2 2 * A 3 3 + A 0 1 * A 1 0 * A 2 3 * A 3 2
      + A 0 1 * A 1 2 * A 2 0 * A 3 3 - A 0 1 * A 1 2 * A 2 3 * A 3 0
      - A 0 1 * A 1 3 * A 2 0 * A 3 2 + A 0 1 * A 1 3 * A 2 2 * A 3 0
      + A 0 2 * A 1 0 * A 2 1 * A 3 3 - A 0 2 * A 1 0 * A 2 3 * A 3 1
      - A 0 2 * A 1 1 * A 2 0 * A 3 3 + A 0 2 * A 1 1 * A 2 3 * A 3 0
      + A 0 2 * A 1 3 * A 2 0 * A 3 1 - A 0 2 * A 1 3 * A 2 1 * A 3 0
      - A 0 3 * A 1 0 * A 2 1 * A 3 2 + A 0 3 * A 1 0 * A 2 2 * A 3 1
      + A 0 3 * A 1 1 * A 2 0 * A 3 2 - A 0 3 * A 1 1 * A 2 2 * A 3 0
      - A 0 3 * A 1 2 * A 2 0 * A 3 1 + A 0 3 * A 1 2 * A 2 1 * A 3 0 := by
  rw [show A = Matrix.of ![![A 0 0, A 0 1, A 0 2, A 0 3], ![A 1 0, A 1 1, A 1 2, A 1 3],
        ![A 2 0, A 2 1, A 2 2, A 2 3], ![A 3 0, A 3 1, A 3 2, A 3 3]] from by
      ext i j; fin_cases i <;> fin_cases j <;> rfl]
  simp [Matrix.det_succ_row_zero, Fin.sum_univ_succ, Matrix.det_fin_three, Fin.succAbove,
    Fin.castSucc, Fin.castAdd, Fin.castLE, Fin.lt_def]
  ring

/-- C7: for every 4×4 input matrix, `Invert_4x4` divides each adjugate entry
by `Determinant_(Cxx) + 0.001f` rather than by the determinant itself —
`Determinant_` computes the true determinant and every entry of the computed
inverse equals the corresponding entry of the (true) adjugate divided by the
ε-regularised determinant.  (`EstimateAR4Models` above invokes `Invert_4x4`
on its lag matrix, so this is the inverse used by the AR(4) model fit.) -/
theorem Invert_4x4_divides_adjugate_by_det_plus_eps (Cxx : Fin 4 → Fin 4 → K) :
    Determinant_ Cxx = (Matrix.of Cxx).det ∧
    ∀ i j, Invert_4x4 Cxx i j =
      (Matrix.of Cxx).adjugate i j / (Determinant_ Cxx + 1 / 1000) := by
  constructor
  · rw [det_fin_four_expand]
    unfold Determinant_
    simp only [Matrix.of_apply]
    ring
  · intro i j
    fin_cases i <;> fin_cases j <;>
      · rw [Matrix.adjugate_apply, det_fin_four_expand]
        simp [Matrix.updateRow_apply, Pi.single_apply, Invert_4x4]
        ring

/-- C2: for every input volume and all dimensions — in particular dimensions
that are not multiples of the tile sizes, since `x`, `y`, `z` below are
arbitrary in-bounds coordinates and the work-group decomposition is
recovered from them — the tiled `SeparableConvolutionRows`,
`SeparableConvolutionColumns` and `SeparableConvolutionRods` kernels produce
at every in-bounds output voxel exactly the value of a naive, non-tiled
direct 1D convolution along the corresponding axis (y, x, z respectively;
for Rows on the certainty-weighted volume and for Rods with the final
normalisation by `Smoothed_Certainty`, as the kernels define the operation). -/
theorem separable_tiled_eq_naive_direct_convolution
    (Volume : ℤ → ℤ → ℤ → ℤ → K) (Certainty Smoothed_Certainty : ℤ → ℤ → ℤ → K)
    (VolumeC VolumeR : ℤ → ℤ → ℤ → K) (f1 f2 f3 : ℤ → K)
    (t DATA_W DATA_H DATA_D x y z : ℤ)
    (hx : 0 ≤ x) (hxW : x < DATA_W) (hy : 0 ≤ y) (hyH : y < DATA_H)
    (hz : 0 ≤ z) (hzD : z < DATA_D) :
    SeparableConvolutionRows Volume Certainty f1 t DATA_W DATA_H DATA_D x y z =
      naiveConvRows (fun a b c => Volume a b c t * Certainty a b c) f1 DATA_H x y z ∧
    SeparableConvolutionColumns VolumeC f2 t DATA_W DATA_H DATA_D x y z =
      naiveConvCols VolumeC f2 DATA_W x y z ∧
    SeparableConvolutionRods VolumeR Smoothed_Certainty f3 t DATA_W DATA_H DATA_D x y z =
      naiveConvRods VolumeR f3 DATA_D x y z / Smoothed_Certainty x y z :=
  ⟨SeparableConvolutionRows_eq_naive Volume Certainty f1 t DATA_W DATA_H DATA_D x y z
      hx hxW hy hyH hz hzD,
   SeparableConvolutionColumns_eq_naive VolumeC f2 t DATA_W DATA_H DATA_D x y z
      hx hxW hy hyH hz hzD,
   SeparableConvolutionRods_eq_naive VolumeR Smoothed_Certainty f3 t DATA_W DATA_H DATA_D x y z
      hx hxW hy hyH hz hzD⟩

/-- C2 witness. -/
theorem separable_tiled_eq_naive_direct_convolution_witness :
    (0 ≤ (0 : ℤ) ∧ (0 : ℤ) < 1) ∧
    (SeparableConvolutionRows (fun _ _ _ _ => (0 : ℚ)) (fun _ _ _ => 0) (fun _ => 0)
        0 1 1 1 0 0 0 =
      naiveConvRows (fun a b c => (fun _ _ _ _ => (0 : ℚ)) a b c 0 * (fun _ _ _ => (0:ℚ)) a b c)
        (fun _ => 0) 1 0 0 0) :=
  ⟨⟨le_refl 0, by decide⟩,
   (separable_tiled_eq_naive_direct_convolution (fun _ _ _ _ => (0 : ℚ)) (fun _ _ _ => 0)
      (fun _ _ _ => 0) (fun _ _ _ => 0) (fun _ _ _ => 0) (fun _ => 0) (fun _ => 0) (fun _ => 0)
      0 1 1 1 0 0 0 (by decide) (by decide) (by decide) (by decide) (by decide) (by decide)).1⟩

/-- C3: for every in-bounds output voxel the separable convolution (Rows and
Rods as quoted by the claim) writes a 9-tap dot product of filter
coefficients against source samples in which any sample whose source
coordinate lies outside the volume contributes exactly zero (zero-padding),
and the kernels' guarded stores never target an out-of-bounds output
position. -/
theorem separable_writes_zero_padded_nine_tap
    (Volume : ℤ → ℤ → ℤ → ℤ → K) (Certainty Smoothed_Certainty : ℤ → ℤ → ℤ → K)
    (VolumeR : ℤ → ℤ → ℤ → K) (f1 f3 : ℤ → K)
    (t DATA_W DATA_H DATA_D x y z : ℤ)
    (hx : 0 ≤ x) (hxW : x < DATA_W) (hy : 0 ≤ y) (hyH : y < DATA_H)
    (hz : 0 ≤ z) (hzD : z < DATA_D) :
    (∀ X Y Z : ℤ, SeparableConvolutionRowsWrites DATA_W DATA_H DATA_D X Y Z →
      0 ≤ X ∧ X < DATA_W ∧ 0 ≤ Y ∧ Y < DATA_H ∧ 0 ≤ Z ∧ Z < DATA_D) ∧
    (∀ X Y Z : ℤ, SeparableConvolutionRodsWrites DATA_W DATA_H DATA_D X Y Z →
      0 ≤ X ∧ X < DATA_W ∧ 0 ≤ Y ∧ Y < DATA_H ∧ 0 ≤ Z ∧ Z < DATA_D) ∧
    SeparableConvolutionRows Volume Certainty f1 t DATA_W DATA_H DATA_D x y z =
      (∑ k ∈ Finset.range 9, f1 (k : ℤ) *
        (if 0 ≤ y + 4 - (k : ℤ) ∧ y + 4 - (k : ℤ) < DATA_H then
          Volume x (y + 4 - (k : ℤ)) z t * Certainty x (y + 4 - (k : ℤ)) z else 0)) ∧
    SeparableConvolutionRods VolumeR Smoothed_Certainty f3 t DATA_W DATA_H DATA_D x y z =
      (∑ k ∈ Finset.range 9, f3 (k : ℤ) *
        (if 0 ≤ z + 4 - (k : ℤ) ∧ z + 4 - (k : ℤ) < DATA_D then
          VolumeR x y (z + 4 - (k : ℤ)) else 0)) / Smoothed_Certainty x y z := by
  refine ⟨?_, ?_, ?_, ?_⟩
  · rintro X Y Z ⟨gx, tx, gy, ty, gz, tz, k, hb, hX, hY, hZ, hg⟩
    omega
  · rintro X Y Z ⟨gx, tx, gy, ty, gz, tz, k, hb, hX, hY, hZ, hg⟩
    omega
  · exact SeparableConvolutionRows_eq_naive Volume Certainty f1 t DATA_W DATA_H DATA_D x y z
      hx hxW hy hyH hz hzD
  · exact SeparableConvolutionRods_eq_naive VolumeR Smoothed_Certainty f3 t
      DATA_W DATA_H DATA_D x y z hx hxW hy hyH hz hzD

/-- C3 witness. -/
theorem separable_writes_zero_padded_nine_tap_witness :
    (0 ≤ (0 : ℤ) ∧ (0 : ℤ) < 1) ∧
    (∀ X Y Z : ℤ, SeparableConvolutionRowsWrites 1 1 1 X Y Z →
      0 ≤ X ∧ X < 1 ∧ 0 ≤ Y ∧ Y < 1 ∧ 0 ≤ Z ∧ Z < 1) :=
  ⟨⟨le_refl 0, by decide⟩,
   (separable_writes_zero_padded_nine_tap (K := ℚ) (fun _ _ _ _ => 0) (fun _ _ _ => 0)
      (fun _ _ _ => 0) (fun _ _ _ => 0) (fun _ => 0) (fun _ => 0)
      0 1 1 1 0 0 0 (by decide) (by decide) (by decide) (by decide) (by decide) (by decide)).1⟩

/-- C9: the separable convolution is a certainty-weighted (normalised)
convolution: `SeparableConvolutionRows` convolves the product
`Volume * Certainty` (every loaded sample is multiplied by its certainty)
and `SeparableConvolutionRods` divides each final filter sum by
`Smoothed_Certainty` at the output voxel; the plain separable convolution
of the volume is recovered exactly when `Certainty` and
`Smoothed_Certainty` are identically one. -/
theorem separable_is_certainty_weighted_convolution
    (Volume : ℤ → ℤ → ℤ → ℤ → K) (Certainty Smoothed_Certainty : ℤ → ℤ → ℤ → K)
    (VolumeR : ℤ → ℤ → ℤ → K) (f1 f3 : ℤ → K)
    (t DATA_W DATA_H DATA_D x y z : ℤ)
    (hx : 0 ≤ x) (hxW : x < DATA_W) (hy : 0 ≤ y) (hyH : y < DATA_H)
    (hz : 0 ≤ z) (hzD : z < DATA_D) :
    SeparableConvolutionRows Volume Certainty f1 t DATA_W DATA_H DATA_D x y z =
      naiveConvRows (fun a b c => Volume a b c t * Certainty a b c) f1 DATA_H x y z ∧
    SeparableConvolutionRods VolumeR Smoothed_Certainty f3 t DATA_W DATA_H DATA_D x y z =
      naiveConvRods VolumeR f3 DATA_D x y z / Smoothed_Certainty x y z ∧
    SeparableConvolutionRows Volume (fun _ _ _ => 1) f1 t DATA_W DATA_H DATA_D x y z =
      naiveConvRows (fun a b c => Volume a b c t) f1 DATA_H x y z ∧
    SeparableConvolutionRods VolumeR (fun _ _ _ => 1) f3 t DATA_W DATA_H DATA_D x y z =
      naiveConvRods VolumeR f3 DATA_D x y z := by
  refine ⟨SeparableConvolutionRows_eq_naive Volume Certainty f1 t DATA_W DATA_H DATA_D x y z
      hx hxW hy hyH hz hzD,
    SeparableConvolutionRods_eq_naive VolumeR Smoothed_Certainty f3 t DATA_W DATA_H DATA_D
      x y z hx hxW hy hyH hz hzD, ?_, ?_⟩
  · rw [SeparableConvolutionRows_eq_naive Volume (fun _ _ _ => 1) f1 t DATA_W DATA_H DATA_D
      x y z hx hxW hy hyH hz hzD]
    unfold naiveConvRows
    simp [mul_one]
  · rw [SeparableConvolutionRods_eq_naive VolumeR (fun _ _ _ => 1) f3 t DATA_W DATA_H DATA_D
      x y z hx hxW hy hyH hz hzD]
    exact div_one _

/-- C9 witness. -/
theorem separable_is_certainty_weighted_convolution_witness :
    (0 ≤ (0 : ℤ) ∧ (0 : ℤ) < 1) ∧
    (SeparableConvolutionRods (fun _ _ _ => (0 : ℚ)) (fun _ _ _ => 1) (fun _ => 0)
        0 1 1 1 0 0 0 =
      naiveConvRods (fun _ _ _ => (0 : ℚ)) (fun _ => 0) 1 0 0 0) :=
  ⟨⟨le_refl 0, by decide⟩,
   (separable_is_certainty_weighted_convolution (fun _ _ _ _ => (0 : ℚ)) (fun _ _ _ => 0)
      (fun _ _ _ => 0) (fun _ _ _ => 0) (fun _ => 0) (fun _ => 0)
      0 1 1 1 0 0 0 (by decide) (by decide) (by decide) (by decide) (by decide) (by decide)).2.2.2⟩

/-- C4 (code bug): evaluating the embedded kernels at one in-mask voxel
(`Mask = 1`), `DATA_T = 5`, the time series `y = (0,0,0,1,0)`, AR estimates
`(AR1, AR2, AR3, AR4) = (1, 0, 0, 0)` and the identity permutation:
applying `ApplyWhiteningAR4` and then `GeneratePermutedVolumesFirstLevel`
yields `-1` at time point 4, whereas the claimed round-trip law requires
the original value `y 4 = 0` (the regeneration loop multiplies `AR1` by the
oldest window value `ŷ(t-4)` instead of `ŷ(t-1)`, and `whitened(0)` is
hard-coded to `0.0f`). -/
theorem whiten_then_unwhiten_identity_roundtrip_fails :
    GeneratePermutedVolumesFirstLevelKernel (fun _ => 0)
      (ApplyWhiteningAR4Kernel (fun _ => 0) (fun t => if t = 3 then (1 : ℚ) else 0) 1 0 0 0 1 5)
      1 0 0 0 1 (fun t => t) 5 4 = -1 ∧
    (fun t => if t = 3 then (1 : ℚ) else 0) 4 = 0 := by
  constructor
  · norm_num [GeneratePermutedVolumesFirstLevelKernel, ApplyWhiteningAR4Kernel,
      GeneratePermutedVolumesFirstLevel, genWindow, ApplyWhiteningAR4]
  · norm_num

/-- C1 witness. -/
theorem nonseparable_slab_sum_eq_direct_3D_conv_witness :
    ((3 : ℤ) ≤ 3 ∧ (3 : ℤ) + 3 < 7) ∧
    nonseparableZSlabAccumulation (fun _ _ _ => (0 : ℚ)) (fun _ _ => 0) (fun _ _ => 0)
      (fun _ _ => 0) (fun _ _ => 0) (fun _ _ => 0) (fun _ _ => 0)
      7 7 7 3 3 3 [-3, -2, -1, 0, 1, 2, 3] ((0, 0), (0, 0), (0, 0)) =
    ((directConv3D (fun _ _ _ => (0 : ℚ)) (fun _ _ => 0) 3 3 3,
      directConv3D (fun _ _ _ => (0 : ℚ)) (fun _ _ => 0) 3 3 3),
     (directConv3D (fun _ _ _ => (0 : ℚ)) (fun _ _ => 0) 3 3 3,
      directConv3D (fun _ _ _ => (0 : ℚ)) (fun _ _ => 0) 3 3 3),
     (directConv3D (fun _ _ _ => (0 : ℚ)) (fun _ _ => 0) 3 3 3,
      directConv3D (fun _ _ _ => (0 : ℚ)) (fun _ _ => 0) 3 3 3)) :=
  ⟨⟨by decide, by decide⟩,
   nonseparable_slab_sum_eq_direct_3D_conv (fun _ _ _ => (0 : ℚ)) (fun _ _ => 0) (fun _ _ => 0)
     (fun _ _ => 0) (fun _ _ => 0) (fun _ _ => 0) (fun _ _ => 0) 7 7 7 3 3 3
     (by decide) (by decide) (by decide) (by decide) (by decide) (by decide)⟩

/-- C5 counterexample: `ApplyWhiteningAR4` checks the mask, yet at a voxel
with `Mask = 0` it returns without writing anything — with prior buffer
contents `5` its output location still holds `5 ≠ 0` after the kernel runs,
so not every mask-checking kernel produces zeros at masked voxels. -/
theorem masked_whitening_leaves_output_unchanged :
    ApplyWhiteningAR4Kernel (fun _ => (5 : ℚ)) (fun _ => 0) 0 0 0 0 0 5 0 = 5 ∧
    (5 : ℚ) ≠ 0 := by
  constructor
  · norm_num [ApplyWhiteningAR4Kernel]
  · norm_num

/-- C5 (amended): for a voxel with `Mask = 0`, the mask-checking kernels
that write outputs on the masked branch (`EstimateAR4Models`,
`CalculateBetaValuesGLM`, `CalculateStatisticalMapsGLM`,
`CalculateStatisticalMapsGLMPermutation`, `RemoveLinearFit`) store exactly
zero at all of their output locations — in particular `EstimateAR4Models`
stores all-zero AR coefficients — while `ApplyWhiteningAR4` and
`GeneratePermutedVolumesFirstLevel` skip the voxel without writing, leaving
their output buffers unchanged (not zeroed). -/
theorem masked_voxel_outputs
    (y Y wOld pOld betaOld statOld bconOld betaVol resOld resOld2 : ℕ → K)
    (P X Con X_Detrend : ℕ → ℕ → K) (ctxtxc : ℕ → K) (rsqrt : K → K)
    (a1 a2 a3 a4 : K) (perm : ℕ → ℕ) (T nV nR nC : ℕ) (Mask : K) (hm : Mask = 0) :
    EstimateAR4Models y Mask T = (0, 0, 0, 0) ∧
    (∀ r, r < nR → CalculateBetaValuesGLM betaOld Y Mask P nV nR r = 0) ∧
    (∀ c, c < nC →
      (CalculateStatisticalMapsGLM statOld bconOld betaVol resOld Y Mask X Con ctxtxc
        rsqrt nV nR nC).StatisticalMaps c = 0 ∧
      (CalculateStatisticalMapsGLM statOld bconOld betaVol resOld Y Mask X Con ctxtxc
        rsqrt nV nR nC).BetaContrasts c = 0) ∧
    (CalculateStatisticalMapsGLM statOld bconOld betaVol resOld Y Mask X Con ctxtxc
      rsqrt nV nR nC).ResidualVariances = 0 ∧
    (∀ r, r < nR →
      (CalculateStatisticalMapsGLM statOld bconOld betaVol resOld Y Mask X Con ctxtxc
        rsqrt nV nR nC).BetaVolumesOut r = 0) ∧
    (∀ v, v < nV →
      (CalculateStatisticalMapsGLM statOld bconOld betaVol resOld Y Mask X Con ctxtxc
        rsqrt nV nR nC).Residuals v = 0) ∧
    (∀ c, c < nC →
      CalculateStatisticalMapsGLMPermutation statOld Y Mask P X Con ctxtxc rsqrt
        nV nR nC c = 0) ∧
    (∀ v, v < nV → RemoveLinearFit resOld2 Y betaVol Mask X_Detrend nV nR v = 0) ∧
    ApplyWhiteningAR4Kernel wOld y a1 a2 a3 a4 Mask T = wOld ∧
    GeneratePermutedVolumesFirstLevelKernel pOld y a1 a2 a3 a4 Mask perm T = pOld := by
  subst hm
  have h01 : (0 : K) ≠ 1 := zero_ne_one
  refine ⟨?_, ?_, ?_, ?_, ?_, ?_, ?_, ?_, ?_, ?_⟩
  · simp [EstimateAR4Models, h01]
  · intro r hr; simp [CalculateBetaValuesGLM, CalculateBetaValuesGLM_skips, h01, hr]
  · intro c hc
    constructor <;>
      simp [CalculateStatisticalMapsGLM, CalculateStatisticalMapsGLM_skips, h01, hc]
  · simp [CalculateStatisticalMapsGLM, CalculateStatisticalMapsGLM_skips, h01]
  · intro r hr
    simp [CalculateStatisticalMapsGLM, CalculateStatisticalMapsGLM_skips, h01, hr]
  · intro v hv
    simp [CalculateStatisticalMapsGLM, CalculateStatisticalMapsGLM_skips, h01, hv]
  · intro c hc
    simp [CalculateStatisticalMapsGLMPermutation,
      CalculateStatisticalMapsGLMPermutation_skips, h01, hc]
  · intro v hv; simp [RemoveLinearFit, RemoveLinearFit_skips, h01, hv]
  · simp [ApplyWhiteningAR4Kernel, h01]
  · simp [GeneratePermutedVolumesFirstLevelKernel, h01]

/-- C5 witness. -/
theorem masked_voxel_outputs_witness :
    ((0 : ℚ) = 0) ∧ EstimateAR4Models (fun _ => (0 : ℚ)) 0 5 = (0, 0, 0, 0) :=
  ⟨rfl,
   (masked_voxel_outputs (fun _ => (0 : ℚ)) (fun _ => 0) (fun _ => 0) (fun _ => 0)
     (fun _ => 0) (fun _ => 0) (fun _ => 0) (fun _ => 0) (fun _ => 0) (fun _ => 0)
     (fun _ _ => 0) (fun _ _ => 0) (fun _ _ => 0) (fun _ _ => 0) (fun _ => 0)
     (fun q => q) 0 0 0 0 (fun t => t) 5 1 1 1 0 rfl).1⟩

/-- C6: for every design matrix `X` whose pseudo-inverse `P = c_xtxxt_GLM`
satisfies `P·Xᵀ = I` on the regressors (the defining property of the
pseudo-inverse of a full-column-rank design), and every in-mask voxel whose
time series is the noise-free synthesis `Y(v) = Σ_r X(r,v)·βtrue(r)`,
`CalculateBetaValuesGLM` recovers `βtrue` exactly and the residuals computed
by `CalculateStatisticalMapsGLM` from those betas are all zero. -/
theorem glm_recovers_true_betas_and_zero_residuals
    (betaOld statOld bconOld resOld : ℕ → K) (Con : ℕ → ℕ → K) (ctxtxc : ℕ → K)
    (rsqrt : K → K) (X P : ℕ → ℕ → K) (betaTrue : ℕ → K) (nV nR nC : ℕ)
    (hP : ∀ r1 ∈ Finset.range nR, ∀ r2 ∈ Finset.range nR,
      ∑ v ∈ Finset.range nV, P r1 v * X r2 v = if r1 = r2 then 1 else 0) :
    (∀ r, r < nR →
      CalculateBetaValuesGLM betaOld
        (fun v => ∑ r' ∈ Finset.range nR, X r' v * betaTrue r') 1 P nV nR r =
      betaTrue r) ∧
    (∀ v, v < nV →
      (CalculateStatisticalMapsGLM statOld bconOld
        (CalculateBetaValuesGLM betaOld
          (fun v => ∑ r' ∈ Finset.range nR, X r' v * betaTrue r') 1 P nV nR)
        resOld (fun v => ∑ r' ∈ Finset.range nR, X r' v * betaTrue r')
        1 X Con ctxtxc rsqrt nV nR nC).Residuals v = 0) := by
  have h11 : ¬ ((1 : K) ≠ 1) := fun h => h rfl
  have hbeta : ∀ r, r < nR →
      CalculateBetaValuesGLM betaOld
        (fun v => ∑ r' ∈ Finset.range nR, X r' v * betaTrue r') 1 P nV nR r =
      betaTrue r := by
    intro r hr
    unfold CalculateBetaValuesGLM
    rw [if_neg h11, if_pos hr]
    calc ∑ v ∈ Finset.range nV, (∑ r' ∈ Finset.range nR, X r' v * betaTrue r') * P r v
        = ∑ v ∈ Finset.range nV, ∑ r' ∈ Finset.range nR,
            P r v * X r' v * betaTrue r' := by
          refine Finset.sum_congr rfl fun v _ => ?_
          rw [Finset.sum_mul]
          exact Finset.sum_congr rfl fun r' _ => by ring
      _ = ∑ r' ∈ Finset.range nR, (∑ v ∈ Finset.range nV, P r v * X r' v) * betaTrue r' := by
          rw [Finset.sum_comm]
          exact Finset.sum_congr rfl fun r' _ => by rw [Finset.sum_mul]
      _ = ∑ r' ∈ Finset.range nR, (if r = r' then 1 else 0) * betaTrue r' := by
          refine Finset.sum_congr rfl fun r' hr' => ?_
          rw [hP r (Finset.mem_range.mpr hr) r' hr']
      _ = betaTrue r := by
          simp [ite_mul, Finset.sum_ite_eq, Finset.mem_range, hr]
  refine ⟨hbeta, ?_⟩
  intro v hv
  unfold CalculateStatisticalMapsGLM
  rw [if_neg h11]
  simp only [hv, if_pos]
  have : ∑ r ∈ Finset.range nR, X r v *
      CalculateBetaValuesGLM betaOld
        (fun v => ∑ r' ∈ Finset.range nR, X r' v * betaTrue r') 1 P nV nR r =
      ∑ r ∈ Finset.range nR, X r v * betaTrue r :=
    Finset.sum_congr rfl fun r hr => by rw [hbeta r (Finset.mem_range.mp hr)]
  rw [this]
  ring

/-- C6 witness. -/
theorem glm_recovers_true_betas_and_zero_residuals_witness :
    (∀ r1 ∈ Finset.range 1, ∀ r2 ∈ Finset.range 1,
      ∑ v ∈ Finset.range 1, (fun _ _ => (1 : ℚ)) r1 v * (fun _ _ => (1 : ℚ)) r2 v =
        if r1 = r2 then 1 else 0) ∧
    CalculateBetaValuesGLM (fun _ => (0 : ℚ))
      (fun v => ∑ r' ∈ Finset.range 1, (fun _ _ => (1 : ℚ)) r' v * (fun _ => (2 : ℚ)) r')
      1 (fun _ _ => (1 : ℚ)) 1 1 0 = (fun _ => (2 : ℚ)) 0 :=
  ⟨by simp [Finset.mem_range, Nat.lt_one_iff],
   (glm_recovers_true_betas_and_zero_residuals (fun _ => (0 : ℚ)) (fun _ => 0) (fun _ => 0)
     (fun _ => 0) (fun _ _ => 0) (fun _ => 0) (fun q => q) (fun _ _ => 1) (fun _ _ => 1)
     (fun _ => 2) 1 1 1
     (by simp [Finset.mem_range, Nat.lt_one_iff])).1 0 (by decide)⟩

/-- C8 counterexample: the claim is false — there is no mask value strictly
between 0 and 1 that one mask-checking GLM kernel processes while another
skips, because `CalculateBetaValuesGLM`, `CalculateStatisticalMapsGLM`,
`CalculateStatisticalMapsGLMPermutation` and `RemoveLinearFit` all use the
identical `Mask != 1.0f` test (no GLM kernel in the file tests
`Mask == 0.0f`). -/
theorem no_glm_mask_check_disagreement :
    ¬ ∃ m : ℚ, 0 < m ∧ m < 1 ∧
      ((¬ CalculateBetaValuesGLM_skips m ∧
          (CalculateStatisticalMapsGLM_skips m ∨
            CalculateStatisticalMapsGLMPermutation_skips m ∨ RemoveLinearFit_skips m)) ∨
       (¬ CalculateStatisticalMapsGLM_skips m ∧
          (CalculateBetaValuesGLM_skips m ∨
            CalculateStatisticalMapsGLMPermutation_skips m ∨ RemoveLinearFit_skips m)) ∨
       (¬ CalculateStatisticalMapsGLMPermutation_skips m ∧
          (CalculateBetaValuesGLM_skips m ∨
            CalculateStatisticalMapsGLM_skips m ∨ RemoveLinearFit_skips m)) ∨
       (¬ RemoveLinearFit_skips m ∧
          (CalculateBetaValuesGLM_skips m ∨
            CalculateStatisticalMapsGLM_skips m ∨
            CalculateStatisticalMapsGLMPermutation_skips m))) := by
  rintro ⟨m, hm0, hm1, h⟩
  have hne : m ≠ 1 := ne_of_lt hm1
  rcases h with ⟨h1, -⟩ | ⟨h1, -⟩ | ⟨h1, -⟩ | ⟨h1, -⟩ <;> exact h1 hne

/-- C8 (amended): all mask-checking GLM kernels in the file use the same
`Mask != 1.0f` skip test (none tests `Mask == 0.0f`), so for every mask
value other than `1.0f` — in particular any value strictly between 0 and
1 such as 0.5 — every one of them skips the voxel and takes its masked
branch; no kernel processes a voxel that another skips. -/
theorem glm_mask_checks_uniform (m : K) (hm : m ≠ 1)
    (betaOld Y resOld betaVol : ℕ → K) (P X_Detrend : ℕ → ℕ → K) (nV nR : ℕ) :
    CalculateBetaValuesGLM_skips m ∧ CalculateStatisticalMapsGLM_skips m ∧
    CalculateStatisticalMapsGLMPermutation_skips m ∧ RemoveLinearFit_skips m ∧
    (∀ r, r < nR → CalculateBetaValuesGLM betaOld Y m P nV nR r = 0) ∧
    (∀ v, v < nV → RemoveLinearFit resOld Y betaVol m X_Detrend nV nR v = 0) := by
  refine ⟨hm, hm, hm, hm, ?_, ?_⟩
  · intro r hr; simp [CalculateBetaValuesGLM, CalculateBetaValuesGLM_skips, hm, hr]
  · intro v hv; simp [RemoveLinearFit, RemoveLinearFit_skips, hm, hv]

/-- C8 witness. -/
theorem glm_mask_checks_uniform_witness :
    ((0 : ℚ) ≠ 1) ∧ CalculateBetaValuesGLM_skips (0 : ℚ) :=
  ⟨zero_ne_one,
   (glm_mask_checks_uniform (0 : ℚ) zero_ne_one (fun _ => 0) (fun _ => 0) (fun _ => 0)
     (fun _ => 0) (fun _ _ => 0) (fun _ _ => 0) 1 1).1⟩

/-- C10: for every in-bounds voxel, `ThresholdVolume` writes exactly `1.0f`
when the input value is greater than or equal to the threshold and exactly
`0.001f` — a nonzero value — otherwise, so in-bounds positions hold no
value other than `1.0f` and `0.001f`. -/
theorem thresholdVolume_writes_one_or_small
    (thresholdedOld Volume3 : ℤ → ℤ → ℤ → K) (threshold : K)
    (DATA_W DATA_H DATA_D x y z : ℤ)
    (hx : 0 ≤ x) (hxW : x < DATA_W) (hy : 0 ≤ y) (hyH : y < DATA_H)
    (hz : 0 ≤ z) (hzD : z < DATA_D) :
    (Volume3 x y z ≥ threshold →
      ThresholdVolume thresholdedOld Volume3 threshold DATA_W DATA_H DATA_D x y z = 1) ∧
    (¬ Volume3 x y z ≥ threshold →
      ThresholdVolume thresholdedOld Volume3 threshold DATA_W DATA_H DATA_D x y z = 1 / 1000) ∧
    (ThresholdVolume thresholdedOld Volume3 threshold DATA_W DATA_H DATA_D x y z = 1 ∨
      ThresholdVolume thresholdedOld Volume3 threshold DATA_W DATA_H DATA_D x y z = 1 / 1000) ∧
    ThresholdVolume thresholdedOld Volume3 threshold DATA_W DATA_H DATA_D x y z ≠ 0 := by
  unfold ThresholdVolume
  rw [if_pos ⟨hx, hxW, hy, hyH, hz, hzD⟩]
  have h1000 : (1 : K) / 1000 ≠ 0 := by positivity
  refine ⟨fun h => if_pos h, fun h => if_neg h, ?_, ?_⟩
  · by_cases h : Volume3 x y z ≥ threshold
    · exact Or.inl (if_pos h)
    · exact Or.inr (if_neg h)
  · by_cases h : Volume3 x y z ≥ threshold
    · rw [if_pos h]; exact one_ne_zero
    · rw [if_neg h]; exact h1000

/-- C10 witness. -/
theorem thresholdVolume_writes_one_or_small_witness :
    ((0 : ℤ) ≤ 0 ∧ (0 : ℤ) < 1) ∧
    (ThresholdVolume (fun _ _ _ => (0 : ℚ)) (fun _ _ _ => 0) 0 1 1 1 0 0 0 = 1 ∨
      ThresholdVolume (fun _ _ _ => (0 : ℚ)) (fun _ _ _ => 0) 0 1 1 1 0 0 0 = 1 / 1000) :=
  ⟨⟨by decide, by decide⟩,
   (thresholdVolume_writes_one_or_small (fun _ _ _ => (0 : ℚ)) (fun _ _ _ => 0) 0 1 1 1 0 0 0
     (by decide) (by decide) (by decide) (by decide) (by decide) (by decide)).2.2.1⟩

end Broccoli
